import Mathlib

/-!
Verification of the `yacloud_compute` Ansible dynamic inventory plugin
(`src/yacloud_compute.py`) against its natural-language specification.

The plugin is a linear fetch-filter-flatten pipeline: it enumerates clouds,
folders within clouds, and compute instances within folders, then maps every
running instance with a resolvable address into an inventory group with a
connection address.  We embed each method of `InventoryModule` as a pure Lean
function; the list responses of the provider and the filesystem are passed in as
explicit function parameters, and the Ansible inventory object (an external
collaborator) is modelled as an explicit record state.
-/

namespace YacloudCompute

/-- A NAT (one-to-one) mapping record carried by a primary IPv4 address:
the external address (`address["oneToOneNat"]["address"]` in the source). -/
structure OneToOneNat where
  address : String
deriving DecidableEq, Repr

/-- The primary IPv4 address record of a network interface
(`interface["primaryV4Address"]` in the source): its own (internal) address
and an optional NAT mapping. -/
structure PrimaryV4Address where
  address : String
  oneToOneNat : Option OneToOneNat
deriving DecidableEq, Repr

/-- A network interface; its primary IPv4 address record may be absent
(the source guards with `if address:`). -/
structure NetworkInterface where
  primaryV4Address : Option PrimaryV4Address
deriving DecidableEq, Repr

/-- A compute instance as consumed by the plugin: name, status string
(`"RUNNING"` or other states), a label mapping, and an ordered interface
list.  Labels are an association list looked up by key. -/
structure Instance where
  name : String
  status : String
  labels : List (String × String)
  networkInterfaces : List NetworkInterface
deriving DecidableEq, Repr

/-- A cloud record: identifier and display name. -/
structure Cloud where
  id : String
  name : String
deriving DecidableEq, Repr

/-- A folder record: identifier and display name. -/
structure Folder where
  id : String
  name : String
deriving DecidableEq, Repr

/-- The Ansible inventory state visible to this plugin: registered group
names, (group, host) memberships, and (host, variable, value) assignments. -/
structure Inventory where
  groups : List String
  groupHosts : List (String × String)
  hostVars : List (String × String × String)
deriving DecidableEq, Repr

/-- Modelled from the spec: group creation in the host tool, an external
collaborator ("group creation (idempotent by name)").  Registering an
already-known group is a no-op. -/
def add_group (group : String) (inv : Inventory) : Inventory :=
  if group ∈ inv.groups then inv
  else { inv with groups := inv.groups ++ [group] }

/-- Modelled from the spec: host creation in the host tool, an external
collaborator ("host creation (by name, under a group)"). -/
def add_host (host : String) (group : String) (inv : Inventory) : Inventory :=
  if (group, host) ∈ inv.groupHosts then inv
  else { inv with groupHosts := inv.groupHosts ++ [(group, host)] }

/-- Modelled from the spec: host variable assignment in the host tool, an
external collaborator ("host variable assignment (connection address)").
Setting a variable overwrites any previous value for the same key. -/
def set_variable (host key value : String) (inv : Inventory) : Inventory :=
  { inv with
    hostVars :=
      inv.hostVars.filter (fun e => ¬ (e.1 = host ∧ e.2.1 = key)) ++
        [(host, key, value)] }

/-- The Python `str.strip()` method (no arguments): remove leading and trailing
whitespace characters. -/
def strip (s : String) : String :=
  ⟨((s.data.dropWhile Char.isWhitespace).reverse.dropWhile Char.isWhitespace).reverse⟩

/-- The Python `str.endswith(suffix)` method: the string ends with the given suffix. -/
def ends_with (s suffix : String) : Bool :=
  suffix.data.isSuffixOf s.data

/-- `InventoryModule.verify_file`: accept the path only when the base
class accepts it and it ends with one of the two recognized suffixes;
otherwise return `false` (no error is raised). -/
def verify_file (superVerify : Bool) (path : String) : Bool :=
  if superVerify then
    if ends_with path "yacloud_compute.yml" || ends_with path "yacloud_compute.yaml" then
      true
    else
      false
  else
    false

/-- `InventoryModule._get_ip_for_instance`, the loop over the interface
list: at the first interface whose primary IPv4 address record is present,
return the NAT external address if a NAT mapping exists, else the own address of the record; return `none` when no interface qualifies. -/
def get_ip_loop : List NetworkInterface → Option String
  | [] => none
  | interface :: rest =>
    match interface.primaryV4Address with
    | some address =>
      match address.oneToOneNat with
      | some nat => some nat.address
      | none => some address.address
    | none => get_ip_loop rest

/-- `InventoryModule._get_ip_for_instance`: resolve a connection address
from the interface list of the instance. -/
def get_ip_for_instance (vm : Instance) : Option String :=
  get_ip_loop vm.networkInterfaces

/-- `InventoryModule._get_clouds`: decode the full cloud list and, when the
`yacloud_clouds` allow-list is non-empty, retain only clouds whose name is
in it. -/
def get_clouds (all_clouds : List Cloud) (yacloud_clouds : List String) : List Cloud :=
  if yacloud_clouds.isEmpty then all_clouds
  else all_clouds.filter (fun x => x.name ∈ yacloud_clouds)

/-- `InventoryModule._get_folders`: accumulate the folder lists of all
selected clouds (one request per cloud, keyed by cloud id), then, when the
`yacloud_folders` allow-list is non-empty, filter the combined accumulator
by folder name. -/
def get_folders (folder_list : String → List Folder) (clouds : List Cloud)
    (yacloud_folders : List String) : List Folder :=
  let all_folders := clouds.foldl (fun acc cloud => acc ++ folder_list cloud.id) []
  if yacloud_folders.isEmpty then all_folders
  else all_folders.filter (fun x => x.name ∈ yacloud_folders)

/-- `InventoryModule._get_all_hosts`: for each folder, decode the instance
list response (keyed by folder id); `none` models a response that decodes
to an empty dict (`if dict_:` in the source), whose instances are not
appended. -/
def get_all_hosts (instance_list : String → Option (List Instance))
    (folders : List Folder) : List Instance :=
  folders.foldl
    (fun acc folder =>
      match instance_list folder.id with
      | some instances => acc ++ instances
      | none => acc)
    []

/-- Spec-side description of the accumulation of the Folder Enumerator, for
comparison with `get_folders`: "ordered sequence of Folder, concatenated
per-cloud in cloud-iteration order". -/
def folders_concat (folder_list : String → List Folder) : List Cloud → List Folder
  | [] => []
  | cloud :: rest => folder_list cloud.id ++ folders_concat folder_list rest

/-- Spec-side description of the accumulation of the Instance Enumerator, for
comparison with `get_all_hosts`: "ordered sequence of Instance, concatenated
per-folder in folder-iteration order", folders with an empty decoded
response contributing nothing. -/
def hosts_concat (instance_list : String → Option (List Instance)) :
    List Folder → List Instance
  | [] => []
  | folder :: rest =>
    (match instance_list folder.id with
     | some instances => instances
     | none => []) ++ hosts_concat instance_list rest

/-- `InventoryModule._init_client`: read the token from the configured
token file (stripping whitespace) when `yacloud_token_file` is set,
otherwise from the literal `yacloud_token` option; raise an AnsibleError
(modelled as `Except.error`) when the resolved token is `None` or empty
(`if not token:` in the source).  On success the token used to build the
SDK clients is returned. -/
def init_client (yacloud_token_file : Option String) (yacloud_token : Option String)
    (file_contents : String → String) : Except String String :=
  let token : Option String :=
    match yacloud_token_file with
    | some file => some (strip (file_contents file))
    | none => yacloud_token
  match token with
  | none => Except.error "token it empty. provide either yacloud_token_file or yacloud_token"
  | some t =>
    if t = "" then
      Except.error "token it empty. provide either yacloud_token_file or yacloud_token"
    else
      Except.ok t

/-- The group computation inside `InventoryModule._process_hosts`: the
value of the configured grouping label when that label key is non-empty
(truthy) and present among the labels of the instance, the fixed default group
`"yacloud"` otherwise. -/
def group_for (group_label : String) (vm : Instance) : String :=
  if group_label = "" then "yacloud"
  else
    match vm.labels.lookup group_label with
    | some v => v
    | none => "yacloud"

/-- The body of the per-instance loop of `InventoryModule._process_hosts`:
register the target group, then, when the status is `"RUNNING"` and an
address resolves to a truthy (non-empty) string, register the host under
the group and set its `ansible_host` variable. -/
def process_one (group_label : String) (inv : Inventory) (vm : Instance) : Inventory :=
  let group := group_for group_label vm
  let inv1 := add_group group inv
  if vm.status = "RUNNING" then
    match get_ip_for_instance vm with
    | some ip =>
      if ip = "" then inv1
      else set_variable vm.name "ansible_host" ip (add_host vm.name group inv1)
    | none => inv1
  else inv1

/-- `InventoryModule._process_hosts`: process the enumerated instances in
order against the inventory state. -/
def process_hosts (group_label : String) (hosts : List Instance)
    (inv : Inventory) : Inventory :=
  hosts.foldl (process_one group_label) inv

/-! ## Helper lemmas -/

theorem get_ip_loop_of_all_none (l : List NetworkInterface)
    (h : ∀ j ∈ l, j.primaryV4Address = none) : get_ip_loop l = none := by
  induction l with
  | nil => rfl
  | cons a rest ih =>
    have ha := h a (by simp)
    simp only [get_ip_loop, ha]
    exact ih fun j hj => h j (by simp [hj])

theorem get_ip_loop_first_present (pre : List NetworkInterface)
    (iface : NetworkInterface) (rest : List NetworkInterface)
    (r : PrimaryV4Address) (hpre : ∀ j ∈ pre, j.primaryV4Address = none)
    (hiface : iface.primaryV4Address = some r) :
    get_ip_loop (pre ++ iface :: rest) =
      some (match r.oneToOneNat with
            | some nat => nat.address
            | none => r.address) := by
  induction pre with
  | nil =>
    simp only [List.nil_append, get_ip_loop, hiface]
    cases r.oneToOneNat <;> rfl
  | cons a pre' ih =>
    have ha := hpre a (by simp)
    simp only [List.cons_append, get_ip_loop, ha]
    exact ih fun j hj => hpre j (by simp [hj])

theorem folders_foldl_eq (folder_list : String → List Folder) :
    ∀ (clouds : List Cloud) (init : List Folder),
      clouds.foldl (fun acc cloud => acc ++ folder_list cloud.id) init =
        init ++ folders_concat folder_list clouds := by
  intro clouds
  induction clouds with
  | nil => intro init; simp [folders_concat]
  | cons c rest ih => intro init; simp [folders_concat, ih]

theorem mem_folders_concat (folder_list : String → List Folder)
    (clouds : List Cloud) (fo : Folder) :
    fo ∈ folders_concat folder_list clouds ↔
      ∃ c ∈ clouds, fo ∈ folder_list c.id := by
  induction clouds with
  | nil => simp [folders_concat]
  | cons c rest ih => simp [folders_concat, ih]

theorem hosts_foldl_eq (instance_list : String → Option (List Instance)) :
    ∀ (folders : List Folder) (init : List Instance),
      folders.foldl
          (fun acc folder =>
            match instance_list folder.id with
            | some instances => acc ++ instances
            | none => acc)
          init =
        init ++ hosts_concat instance_list folders := by
  intro folders
  induction folders with
  | nil => intro init; simp [hosts_concat]
  | cons f rest ih =>
    intro init
    cases h : instance_list f.id with
    | some l => simp [hosts_concat, h, ih]
    | none => simp [hosts_concat, h, ih]

theorem mem_hosts_concat (instance_list : String → Option (List Instance))
    (folders : List Folder) (f : Folder) (l : List Instance) (i : Instance)
    (hf : f ∈ folders) (hl : instance_list f.id = some l) (hi : i ∈ l) :
    i ∈ hosts_concat instance_list folders := by
  induction folders with
  | nil => simp at hf
  | cons g rest ih =>
    simp [hosts_concat]
    rcases List.mem_cons.mp hf with hg | hg
    · subst hg; left; simp [hl]; exact hi
    · right; exact ih hg

/-! ## Claims -/

/-- Claim C1, as frozen, is false on the code: `_process_hosts` registers
the target group before checking the status, so processing a non-RUNNING
instance against an inventory that does not yet know the group does change
the inventory.  Concretely, a STOPPED instance processed into an empty
inventory leaves the group `"yacloud"` registered. -/
theorem claim_C1_counterexample :
    process_one "env" ⟨[], [], []⟩ ⟨"vm1", "STOPPED", [], []⟩ ≠
      (⟨[], [], []⟩ : Inventory) := by
  decide

/-- Claim C1 (amended): for every instance whose status is not RUNNING,
processing it with the Host Mapper creates no host entry and no host
variable; its only effect is registering the target group, a no-op when
that group already exists. -/
theorem claim_C1_theorem (group_label : String) (inv : Inventory) (vm : Instance)
    (h : vm.status ≠ "RUNNING") :
    process_one group_label inv vm = add_group (group_for group_label vm) inv := by
  simp [process_one, h]

/-- Claim C1 witness: the amended statement at a concrete STOPPED instance. -/
theorem claim_C1_witness :
    process_one "env" ⟨[], [], []⟩ ⟨"vm1", "STOPPED", [], []⟩ =
      add_group (group_for "env" ⟨"vm1", "STOPPED", [], []⟩) ⟨[], [], []⟩ :=
  claim_C1_theorem "env" ⟨[], [], []⟩ ⟨"vm1", "STOPPED", [], []⟩ (by decide)

/-- Claim C2, as frozen, is false on the code: when a token file is
configured whose content strips to empty, `_init_client` raises even
though the literal token `"abc"` is a non-empty string, so a non-empty
credential source does not guarantee success. -/
theorem claim_C2_counterexample :
    (some "abc" : Option String) ≠ some "" ∧
    init_client (some "token_file") (some "abc") (fun _ => "") =
      Except.error "token it empty. provide either yacloud_token_file or yacloud_token" :=
  ⟨by decide, rfl⟩

/-- Claim C2 (amended): client initialization succeeds exactly when the
selected credential source is non-empty — the stripped token-file content
when a token file path is configured, the literal token otherwise — and
the token file path, when set, takes precedence over the literal token
(which is then never consulted). -/
theorem claim_C2_theorem :
    (∀ (yacloud_token_file yacloud_token : Option String)
        (file_contents : String → String),
        (∃ t, init_client yacloud_token_file yacloud_token file_contents =
          Except.ok t) ↔
          (match yacloud_token_file with
           | some file => strip (file_contents file) ≠ ""
           | none => ∃ s, yacloud_token = some s ∧ s ≠ "")) ∧
    (∀ (file : String) (tok tok' : Option String) (file_contents : String → String),
        init_client (some file) tok file_contents =
          init_client (some file) tok' file_contents) := by
  constructor
  · intro tf tok fs
    cases tf with
    | some file =>
      by_cases h : strip (fs file) = "" <;> simp [init_client, h]
    | none =>
      cases tok with
      | none => simp [init_client]
      | some s => by_cases h : s = "" <;> simp [init_client, h]
  · intro file tok tok' fs
    rfl

/-- Claim C2 witness: a configured token file with non-empty stripped
content initializes successfully. -/
theorem claim_C2_witness :
    ∃ t, init_client (some "cfg") none (fun _ => " tok ") = Except.ok t :=
  (claim_C2_theorem.1 (some "cfg") none (fun _ => " tok ")).mpr (by decide)

/-- Claim C3: the Address Resolver scans the interface list in order; at
the first interface whose primary IPv4 address record is present it
returns the NAT external address when a NAT mapping exists and the own
address of the record otherwise (later interfaces never matter), and it
returns `none` when no interface has a primary IPv4 address record. -/
theorem claim_C3_theorem :
    (∀ (vm : Instance) (pre : List NetworkInterface) (iface : NetworkInterface)
        (rest : List NetworkInterface) (r : PrimaryV4Address),
        vm.networkInterfaces = pre ++ iface :: rest →
        (∀ j ∈ pre, j.primaryV4Address = none) →
        iface.primaryV4Address = some r →
        get_ip_for_instance vm =
          some (match r.oneToOneNat with
                | some nat => nat.address
                | none => r.address)) ∧
    (∀ vm : Instance,
        (∀ j ∈ vm.networkInterfaces, j.primaryV4Address = none) →
        get_ip_for_instance vm = none) := by
  constructor
  · intro vm pre iface rest r hsplit hpre hiface
    unfold get_ip_for_instance
    rw [hsplit]
    exact get_ip_loop_first_present pre iface rest r hpre hiface
  · intro vm h
    exact get_ip_loop_of_all_none vm.networkInterfaces h

/-- Claim C3 witness: with a first interface lacking a primary IPv4
record, a second carrying a NAT mapping, and a third with an internal
address, the resolver returns the NAT external address of the second. -/
theorem claim_C3_witness :
    get_ip_for_instance
        ⟨"vm2", "RUNNING", [],
          [⟨none⟩, ⟨some ⟨"10.0.0.1", some ⟨"77.1.2.3"⟩⟩⟩,
            ⟨some ⟨"192.168.0.9", none⟩⟩]⟩ =
      some "77.1.2.3" :=
  claim_C3_theorem.1 _ [⟨none⟩] ⟨some ⟨"10.0.0.1", some ⟨"77.1.2.3"⟩⟩⟩
    [⟨some ⟨"192.168.0.9", none⟩⟩] ⟨"10.0.0.1", some ⟨"77.1.2.3"⟩⟩
    rfl (by decide) rfl

/-- Claim C4: a RUNNING instance whose address resolves to a (non-empty)
value, with the grouping label configured but absent from its labels, is
registered as a host under the default group `"yacloud"` with the
`ansible_host` variable set to that address. -/
theorem claim_C4_theorem (group_label : String) (inv : Inventory) (vm : Instance)
    (a : String) (hstatus : vm.status = "RUNNING") (hlabel : group_label ≠ "")
    (hmiss : vm.labels.lookup group_label = none)
    (hip : get_ip_for_instance vm = some a) (ha : a ≠ "") :
    process_one group_label inv vm =
      set_variable vm.name "ansible_host" a
        (add_host vm.name "yacloud" (add_group "yacloud" inv)) := by
  simp [process_one, group_for, hstatus, hlabel, hmiss, hip, ha]

/-- Claim C4 witness: the spec scenario — no labels, grouping label
`"env"` configured, status RUNNING, address `"1.2.3.4"`. -/
theorem claim_C4_witness :
    process_one "env" ⟨[], [], []⟩
        ⟨"web0", "RUNNING", [], [⟨some ⟨"1.2.3.4", none⟩⟩]⟩ =
      set_variable "web0" "ansible_host" "1.2.3.4"
        (add_host "web0" "yacloud" (add_group "yacloud" ⟨[], [], []⟩)) :=
  claim_C4_theorem "env" ⟨[], [], []⟩
    ⟨"web0", "RUNNING", [], [⟨some ⟨"1.2.3.4", none⟩⟩]⟩
    "1.2.3.4" rfl (by decide) rfl rfl (by decide)

/-- Claim C5: with a non-empty folder allow-list, the Folder Enumerator
returns exactly the per-cloud concatenation (in cloud-iteration order)
restricted to folders whose name is in the allow-list; membership in the
output depends only on coming from some selected cloud and having an
allowed name, regardless of which cloud it is. -/
theorem claim_C5_theorem (folder_list : String → List Folder) (clouds : List Cloud)
    (yacloud_folders : List String) (hne : yacloud_folders ≠ []) :
    get_folders folder_list clouds yacloud_folders =
      (folders_concat folder_list clouds).filter
        (fun x => x.name ∈ yacloud_folders) ∧
    ∀ fo : Folder,
      fo ∈ get_folders folder_list clouds yacloud_folders ↔
        ((∃ c ∈ clouds, fo ∈ folder_list c.id) ∧ fo.name ∈ yacloud_folders) := by
  have hemp : yacloud_folders.isEmpty = false := by
    cases yacloud_folders with
    | nil => exact absurd rfl hne
    | cons a l => rfl
  have heq : get_folders folder_list clouds yacloud_folders =
      (folders_concat folder_list clouds).filter
        (fun x => x.name ∈ yacloud_folders) := by
    unfold get_folders
    rw [folders_foldl_eq]
    simp [hemp]
  refine ⟨heq, ?_⟩
  intro fo
  rw [heq, List.mem_filter, mem_folders_concat]
  simp

/-- Claim C5 witness: two clouds each contributing a folder named
`"x"`; the allow-list `["x"]` keeps both. -/
theorem claim_C5_witness :
    get_folders (fun cid => if cid = "c1" then [⟨"f1", "x"⟩] else [⟨"f2", "x"⟩])
        [⟨"c1", "dev"⟩, ⟨"c2", "prod"⟩] ["x"] =
      (folders_concat
          (fun cid => if cid = "c1" then [⟨"f1", "x"⟩] else [⟨"f2", "x"⟩])
          [⟨"c1", "dev"⟩, ⟨"c2", "prod"⟩]).filter (fun x => x.name ∈ ["x"]) :=
  (claim_C5_theorem _ _ _ (by decide)).1

/-- Claim C6: with an empty cloud allow-list the Cloud Enumerator returns
the full provider response; with a non-empty allow-list it returns the
order-preserving subsequence of exactly the clouds whose name is in the
list, so every output name is allowed. -/
theorem claim_C6_theorem :
    (∀ all_clouds : List Cloud, get_clouds all_clouds [] = all_clouds) ∧
    (∀ (all_clouds : List Cloud) (allow : List String), allow ≠ [] →
        get_clouds all_clouds allow =
          all_clouds.filter (fun x => x.name ∈ allow) ∧
        (get_clouds all_clouds allow).Sublist all_clouds ∧
        ∀ c ∈ get_clouds all_clouds allow, c.name ∈ allow) := by
  constructor
  · intro ac; rfl
  · intro ac allow h
    have hemp : allow.isEmpty = false := by
      cases allow with
      | nil => exact absurd rfl h
      | cons a l => rfl
    have heq : get_clouds ac allow = ac.filter (fun x => x.name ∈ allow) := by
      simp [get_clouds, hemp]
    refine ⟨heq, ?_, ?_⟩
    · rw [heq]; exact List.filter_sublist ac
    · intro c hc
      rw [heq] at hc
      simpa using (List.mem_filter.mp hc).2

/-- Claim C6 witness: the allow-list `["beta"]` against a two-cloud
response filters the response by name. -/
theorem claim_C6_witness :
    get_clouds [⟨"i1", "alpha"⟩, ⟨"i2", "beta"⟩] ["beta"] =
      ([⟨"i1", "alpha"⟩, ⟨"i2", "beta"⟩] : List Cloud).filter
        (fun x => x.name ∈ ["beta"]) :=
  (claim_C6_theorem.2 [⟨"i1", "alpha"⟩, ⟨"i2", "beta"⟩] ["beta"] (by decide)).1

/-- Claim C7: the target group is the value of the configured grouping
label when that key is non-empty and present in the labels of the
instance, and the literal default `"yacloud"` otherwise; the spec
scenario (label env=prod, grouping label env, RUNNING, internal address
10.0.0.5, no NAT) registers host `"web1"` under group `"prod"` with
`ansible_host` set to `"10.0.0.5"`. -/
theorem claim_C7_theorem :
    (∀ (group_label : String) (vm : Instance) (v : String),
        group_label ≠ "" → vm.labels.lookup group_label = some v →
        group_for group_label vm = v) ∧
    (∀ (group_label : String) (vm : Instance),
        group_label = "" ∨ vm.labels.lookup group_label = none →
        group_for group_label vm = "yacloud") ∧
    process_one "env" ⟨[], [], []⟩
        ⟨"web1", "RUNNING", [("env", "prod")], [⟨some ⟨"10.0.0.5", none⟩⟩]⟩ =
      ⟨["prod"], [("prod", "web1")], [("web1", "ansible_host", "10.0.0.5")]⟩ := by
  refine ⟨?_, ?_, ?_⟩
  · intro gl vm v hgl hlk
    simp [group_for, hgl, hlk]
  · intro gl vm h
    rcases h with h | h
    · simp [group_for, h]
    · by_cases hgl : gl = "" <;> simp [group_for, hgl, h]
  · decide

/-- Claim C7 witness: the grouping label `"env"` present with value
`"prod"` yields target group `"prod"`. -/
theorem claim_C7_witness :
    group_for "env" ⟨"web1", "RUNNING", [("env", "prod")], []⟩ = "prod" :=
  claim_C7_theorem.1 "env" ⟨"web1", "RUNNING", [("env", "prod")], []⟩ "prod"
    (by decide) rfl

/-- Claim C8: the Instance Enumerator returns the concatenation, in
folder-iteration order, of the instance lists of the folders whose
decoded response is non-empty, and every instance of every such response
— whatever its status — appears in the output. -/
theorem claim_C8_theorem (instance_list : String → Option (List Instance))
    (folders : List Folder) :
    get_all_hosts instance_list folders = hosts_concat instance_list folders ∧
    ∀ f ∈ folders, ∀ l, instance_list f.id = some l →
      ∀ i ∈ l, i ∈ get_all_hosts instance_list folders := by
  have heq : get_all_hosts instance_list folders =
      hosts_concat instance_list folders := by
    unfold get_all_hosts
    rw [hosts_foldl_eq]
    simp
  refine ⟨heq, ?_⟩
  intro f hf l hl i hi
  rw [heq]
  exact mem_hosts_concat instance_list folders f l i hf hl hi

/-- Claim C8 witness: a STOPPED instance returned for the first folder
appears in the enumerated output (no status filtering). -/
theorem claim_C8_witness :
    (⟨"s1", "STOPPED", [], []⟩ : Instance) ∈
      get_all_hosts
        (fun fid => if fid = "f1" then some [⟨"s1", "STOPPED", [], []⟩] else none)
        [⟨"f1", "x"⟩, ⟨"f2", "y"⟩] :=
  (claim_C8_theorem
      (fun fid => if fid = "f1" then some [⟨"s1", "STOPPED", [], []⟩] else none)
      [⟨"f1", "x"⟩, ⟨"f2", "y"⟩]).2
    ⟨"f1", "x"⟩ (by decide) [⟨"s1", "STOPPED", [], []⟩] rfl
    ⟨"s1", "STOPPED", [], []⟩ (by decide)

/-- Claim C9: when a token file is configured, the literal token option is
never consulted (initialization is invariant under changing it), and an
empty stripped file content fails with the configuration error even if a
non-empty literal token is configured. -/
theorem claim_C9_theorem :
    (∀ (file : String) (tok tok' : Option String) (file_contents : String → String),
        init_client (some file) tok file_contents =
          init_client (some file) tok' file_contents) ∧
    (∀ (file : String) (tok : Option String) (file_contents : String → String),
        strip (file_contents file) = "" →
        init_client (some file) tok file_contents =
          Except.error
            "token it empty. provide either yacloud_token_file or yacloud_token") := by
  constructor
  · intro file tok tok' fs
    rfl
  · intro file tok fs h
    simp [init_client, h]

/-- Claim C9 witness: a token file stripping to empty fails although the
literal token `"literal"` is non-empty. -/
theorem claim_C9_witness :
    init_client (some "p") (some "literal") (fun _ => "  ") =
      Except.error
        "token it empty. provide either yacloud_token_file or yacloud_token" :=
  claim_C9_theorem.2 "p" (some "literal") (fun _ => "  ") (by decide)

/-- Claim C10: a path ending with neither recognized suffix is rejected by
`verify_file` with result `false` — silently, no error value exists. -/
theorem claim_C10_theorem (superVerify : Bool) (path : String)
    (h1 : ends_with path "yacloud_compute.yml" = false)
    (h2 : ends_with path "yacloud_compute.yaml" = false) :
    verify_file superVerify path = false := by
  cases superVerify <;> simp [verify_file, h1, h2]

/-- Claim C10 witness: `"hosts.yml"` lacks both suffixes and is rejected
even when the base class accepts the file. -/
theorem claim_C10_witness :
    verify_file true "hosts.yml" = false :=
  claim_C10_theorem true "hosts.yml" (by decide) (by decide)

end YacloudCompute
